import Mathlib

/-!
Verification of the spam classifier and offense ledger of
`aptos_telegram_wall` (src/main.go).

The classifier `IsSpam` is embedded as a pure function over `List Char`.
The regular expressions of `NewSpamDetector` are embedded as decidable
substring matchers: `regexp.MatchString` in Go only asks whether a match
exists anywhere, so each pattern is modelled as "some position of the
text starts a match".  Case-insensitivity (`(?i)`, `strings.ToLower`) is
modelled by ASCII case folding.

The offense ledger `RecordSpam` is embedded with the SQLite table
`spam_records` as a function `Int × Int → Option Int` and an explicit
outcome parameter saying which of the two statements (the upsert `Exec`,
the `QueryRow` count read) fails, if any.
-/

/-- ASCII case folding, modelling the case-insensitive matching of
`(?i)` in the link regex and `strings.ToLower` for keywords. -/
def lc (c : Char) : Char :=
  if 'A' ≤ c ∧ c ≤ 'Z' then Char.ofNat (c.toNat + 32) else c

/-- `strings.ToLower` on the message text (ASCII folding). -/
def toLowerStr (cs : List Char) : List Char := cs.map lc

/-- Word characters `[a-zA-Z0-9_]`, used by the mention pattern and the
`\b` word boundary of the link pattern. -/
def isWordChar (c : Char) : Bool :=
  ('a' ≤ c && c ≤ 'z') || ('A' ≤ c && c ≤ 'Z') || ('0' ≤ c && c ≤ '9') || c == '_'

/-- `[a-z0-9]` under `(?i)`: start of a domain label. -/
def isLabelStart (c : Char) : Bool :=
  ('a' ≤ lc c && lc c ≤ 'z') || ('0' ≤ c && c ≤ '9')

/-- `[-a-z0-9]` under `(?i)`: continuation of a domain label. -/
def isLabelChar (c : Char) : Bool :=
  isLabelStart c || c == '-'

/-- Case-insensitive literal prefix match: does `cs` start with the
pattern `p` (folding both sides)? -/
def startsWithCI : List Char → List Char → Bool
  | [], _ => true
  | _ :: _, [] => false
  | p :: ps, c :: cs => (lc p == lc c) && startsWithCI ps cs

/-- Case-sensitive literal prefix match (used on already-lowered text
for keyword containment). -/
def startsWithLit : List Char → List Char → Bool
  | [], _ => true
  | _ :: _, [] => false
  | p :: ps, c :: cs => (p == c) && startsWithLit ps cs

/-- Consume a case-insensitive literal prefix, returning the remainder. -/
def afterPrefixCI : List Char → List Char → Option (List Char)
  | [], cs => some cs
  | _ :: _, [] => none
  | p :: ps, c :: cs => if lc p == lc c then afterPrefixCI ps cs else none

/-- The `\b` word boundary after a TLD: end of text or a non-word
character follows. -/
def boundaryOk : List Char → Bool
  | [] => true
  | c :: _ => !isWordChar c

/-- The fixed TLD allow-list of the link regex in `NewSpamDetector`. -/
def tldList : List (List Char) :=
  ["com".data, "net".data, "org".data, "io".data, "me".data, "co".data,
   "xyz".data, "info".data, "biz".data, "tv".data, "cc".data, "ru".data,
   "kr".data, "cn".data]

/-- Does `cs` start with `.` followed by a listed TLD and a word
boundary (`\.(com|net|...)\b`)? -/
def dotTldAt : List Char → Bool
  | '.' :: rest =>
      tldList.any (fun t =>
        match afterPrefixCI t rest with
        | some rest2 => boundaryOk rest2
        | none => false)
  | _ => false

/-- After a label-start character: zero or more `[-a-z0-9]` characters
followed by `\.(tld)\b`. -/
def labelTail : List Char → Bool
  | [] => false
  | c :: rest => dotTldAt (c :: rest) || (isLabelChar c && labelTail rest)

/-- Does `cs` start with a match of `[a-z0-9][-a-z0-9]*\.(tld)\b`? -/
def labelTldAt : List Char → Bool
  | [] => false
  | c :: rest => isLabelStart c && labelTail rest

/-- Does `cs` start with a match of one alternative of the link pattern
`(?i)(https?://|t\.me/|bit\.ly|tinyurl|telegram\.me|www\.|label\.(tld)\b)`? -/
def linkAt (cs : List Char) : Bool :=
  startsWithCI "http://".data cs || startsWithCI "https://".data cs ||
  startsWithCI "t.me/".data cs || startsWithCI "bit.ly".data cs ||
  startsWithCI "tinyurl".data cs || startsWithCI "telegram.me".data cs ||
  startsWithCI "www.".data cs || labelTldAt cs

/-- Does `cs` start with a match of the mention pattern
`@[a-zA-Z0-9_]+`? -/
def mentionAt : List Char → Bool
  | '@' :: c :: _ => isWordChar c
  | _ => false

/-- `MatchString` semantics: does `p` hold at some suffix position of
the text (including the position at the very end)? -/
def existsAt (p : List Char → Bool) : List Char → Bool
  | [] => p []
  | c :: cs => p (c :: cs) || existsAt p cs

/-- `strings.Contains lowerText keyword`: the needle occurs as a
(case-sensitive) substring. -/
def containsSub (needle haystack : List Char) : Bool :=
  existsAt (startsWithLit needle) haystack

/-- The fixed spam-keyword list of `NewSpamDetector`, in table order. -/
def spamKeywords : List String :=
  ["earn money", "make money fast", "investment opportunity",
   "double your", "guaranteed profit", "free money",
   "click here", "join now", "limited time offer",
   "act now", "don\x27t miss", "exclusive deal",
   "work from home", "be your own boss", "financial freedom",
   "forex signal", "trading signal", "casino", "betting"]

/-- `IsSpam` from src/main.go: lower the text, test the link pattern on
the raw text, then the mention pattern; a link is always spam, a mention
plus the first keyword contained in the lowered text is spam, anything
else is not spam.  Returns `(isSpam, reason, displayReason)`. -/
def IsSpam (text : List Char) : Bool × String × String :=
  let lowerText := toLowerStr text
  let hasLink := existsAt linkAt text
  let hasMention := existsAt mentionAt text
  if hasLink then
    (true, "URL detected", "URL 감지")
  else if hasMention then
    match spamKeywords.find? (fun k => containsSub k.data lowerText) with
    | some keyword => (true, "spam keyword with mention: " ++ keyword, "멘션+스팸 키워드")
    | none => (false, "", "")
  else
    (false, "", "")

/-- The SQLite table `spam_records (chat_id, user_id, count)` with
primary key `(chat_id, user_id)`: a partial map from the composite key
to the stored count. -/
def Store : Type := Int × Int → Option Int

/-- The upsert statement of `RecordSpam`:
`INSERT ... VALUES (?, ?, 1) ON CONFLICT(chat_id, user_id) DO UPDATE SET count = count + 1`. -/
def upsertSpamRecord (s : Store) (chatID userID : Int) : Store :=
  fun key =>
    if key = (chatID, userID) then
      match s (chatID, userID) with
      | none => some 1
      | some c => some (c + 1)
    else s key

/-- Which of the two database statements inside `RecordSpam` fails:
none (`ok`), the upsert `Exec` (`execFail`), or the subsequent
`QueryRow ... Scan` count read (`queryFail`). -/
inductive DBOutcome where
  | ok : DBOutcome
  | execFail : DBOutcome
  | queryFail : DBOutcome

/-- The detector configuration relevant to the ledger: `banThreshold`. -/
structure SpamDetector where
  banThreshold : Int

/-- `NewSpamDetector` sets `banThreshold: 3`. -/
def defaultDetector : SpamDetector := ⟨3⟩

/-- `RecordSpam` from src/main.go, with the store passed explicitly and
the database outcome made an explicit parameter.  On `execFail` the
store is untouched and `(0, false)` is returned (error logged only); on
`queryFail` the upsert has already run, the count read fails and
`(0, false)` is returned; on `ok` the post-increment count is read back
and `shouldBan` is `count >= banThreshold`.  Returns
`(new store, count, shouldBan)`. -/
def RecordSpam (sd : SpamDetector) (s : Store) (chatID userID : Int)
    (e : DBOutcome) : Store × Int × Bool :=
  match e with
  | .execFail => (s, 0, false)
  | .queryFail => (upsertSpamRecord s chatID userID, 0, false)
  | .ok =>
      let s2 := upsertSpamRecord s chatID userID
      let count := (s2 (chatID, userID)).getD 0
      (s2, count, decide (sd.banThreshold ≤ count))

/-- `n` consecutive successful `RecordSpam` calls for the same key. -/
def runCalls (sd : SpamDetector) (chatID userID : Int) : Nat → Store → Store
  | 0, s => s
  | n + 1, s => runCalls sd chatID userID n (RecordSpam sd s chatID userID .ok).1

/-- The `(count, shouldBan)` pair returned by the `k`-th of a run of
successful `RecordSpam` calls for the same key (`k ≥ 1`). -/
def nthCallResult (sd : SpamDetector) (chatID userID : Int) (s : Store)
    (k : Nat) : Int × Bool :=
  (RecordSpam sd (runCalls sd chatID userID (k - 1) s) chatID userID .ok).2

/-- The empty store: the state created by `NewSpamDetector` on a fresh
database (no record for any key). -/
def emptyStore : Store := fun _ => none

/-- A sample store holding count 5 for key (1, 2), used for concrete
evaluation of the ledger lemmas. -/
def storeW : Store := fun key => if key = (1, 2) then some 5 else none

lemma runCalls_some (sd : SpamDetector) (chatID userID : Int) (n : Nat) :
    ∀ (s : Store) (c : Int), s (chatID, userID) = some c →
      runCalls sd chatID userID n s (chatID, userID) = some (c + n) := by
  induction n with
  | zero => intro s c h; simpa using h
  | succ n ih =>
      intro s c h
      have h2 : (RecordSpam sd s chatID userID .ok).1 (chatID, userID) = some (c + 1) := by
        simp [RecordSpam, upsertSpamRecord, h]
      have h3 := ih _ _ h2
      show runCalls sd chatID userID n (RecordSpam sd s chatID userID .ok).1 (chatID, userID) = _
      rw [h3]
      congr 1
      push_cast
      ring

lemma runCalls_none (sd : SpamDetector) (chatID userID : Int) (n : Nat) (s : Store)
    (h : s (chatID, userID) = none) :
    runCalls sd chatID userID n s (chatID, userID) =
      if n = 0 then none else some (n : Int) := by
  cases n with
  | zero => simpa using h
  | succ n =>
      have h2 : (RecordSpam sd s chatID userID .ok).1 (chatID, userID) = some 1 := by
        simp [RecordSpam, upsertSpamRecord, h]
      have h3 := runCalls_some sd chatID userID n _ 1 h2
      show runCalls sd chatID userID n (RecordSpam sd s chatID userID .ok).1 (chatID, userID) = _
      rw [h3]
      simp
      ring

lemma recordSpam_ok_of_some (sd : SpamDetector) (s : Store) (chatID userID : Int) (c : Int)
    (h : s (chatID, userID) = some c) :
    (RecordSpam sd s chatID userID .ok).2 = (c + 1, decide (sd.banThreshold ≤ c + 1)) := by
  simp [RecordSpam, upsertSpamRecord, h]

lemma recordSpam_ok_of_none (sd : SpamDetector) (s : Store) (chatID userID : Int)
    (h : s (chatID, userID) = none) :
    (RecordSpam sd s chatID userID .ok).2 = (1, decide (sd.banThreshold ≤ 1)) := by
  simp [RecordSpam, upsertSpamRecord, h]

lemma upsert_isolation_monotone (s : Store) (chatID userID : Int) (key : Int × Int) :
    (key ≠ (chatID, userID) → upsertSpamRecord s chatID userID key = s key) ∧
    (∀ c : Int, s key = some c →
      ∃ c2 : Int, upsertSpamRecord s chatID userID key = some c2 ∧ c ≤ c2) := by
  constructor
  · intro hne
    simp [upsertSpamRecord, hne]
  · intro c h
    by_cases hk : key = (chatID, userID)
    · subst hk
      refine ⟨c + 1, ?_, by linarith⟩
      simp [upsertSpamRecord, h]
    · exact ⟨c, by simp [upsertSpamRecord, hk, h], le_refl c⟩

lemma scenarioA_url : IsSpam "Check out http://example.com now!".data =
    (true, "URL detected", "URL 감지") := by
  decide

lemma scenarioC_not_spam : IsSpam "just saying hi to everyone".data = (false, "", "") := by
  decide

lemma scenarioD_counts :
    nthCallResult defaultDetector 5 7 emptyStore 1 = (1, false) ∧
    nthCallResult defaultDetector 5 7 emptyStore 2 = (2, false) ∧
    nthCallResult defaultDetector 5 7 emptyStore 3 = (3, true) := by
  refine ⟨by decide, by decide, by decide⟩

/-- C1: any text containing a substring matched by the link pattern is
classified as spam with internal reason exactly "URL detected" (Korean
display reason), regardless of anything else in the text — in
particular the link rule takes precedence over the mention+keyword
rule. -/
theorem isSpam_link_detected (text : List Char) (h : existsAt linkAt text = true) :
    IsSpam text = (true, "URL detected", "URL 감지") := by
  simp [IsSpam, h]

theorem isSpam_link_detected_witness :
    existsAt linkAt "Ignore @admin earn money at T.ME/scam".data = true ∧
    IsSpam "Ignore @admin earn money at T.ME/scam".data = (true, "URL detected", "URL 감지") :=
  ⟨by decide, isSpam_link_detected _ (by decide)⟩

/-- C2: starting from a store with no record for the key, the k-th of a
run of successful `RecordSpam` calls for that key returns count exactly
k, and with the default threshold 3 the ban flag is k ≥ 3 (so calls 1
and 2 return false and call 3 returns true). -/
theorem recordSpam_nth_count (s : Store) (chatID userID : Int) (k : Nat)
    (h0 : s (chatID, userID) = none) (hk : 1 ≤ k) :
    nthCallResult defaultDetector chatID userID s k =
      ((k : Int), decide ((3 : Int) ≤ (k : Int))) := by
  obtain ⟨j, rfl⟩ : ∃ j, k = j + 1 := ⟨k - 1, by omega⟩
  have hrun := runCalls_none defaultDetector chatID userID j s h0
  unfold nthCallResult
  simp only [Nat.add_sub_cancel]
  by_cases hj : j = 0
  · subst hj
    rw [if_pos rfl] at hrun
    rw [recordSpam_ok_of_none defaultDetector _ chatID userID hrun]
    decide
  · rw [if_neg hj] at hrun
    rw [recordSpam_ok_of_some defaultDetector _ chatID userID _ hrun]
    have hc : ((j : Int) + 1) = ((j + 1 : Nat) : Int) := by push_cast; ring
    rw [hc]
    rfl

theorem recordSpam_nth_count_witness :
    emptyStore (5, 7) = none ∧ (1 : Nat) ≤ 3 ∧
    nthCallResult defaultDetector 5 7 emptyStore 3 = (3, true) :=
  ⟨rfl, by decide, recordSpam_nth_count emptyStore 5 7 3 rfl (by decide)⟩

/-- C3: with the default threshold 3, every `RecordSpam` call (whatever
the database outcome) returns `shouldBan = true` iff the returned count
is at least 3; the degraded error result `(0, false)` keeps the iff. -/
theorem recordSpam_shouldBan_iff (s : Store) (chatID userID : Int) (e : DBOutcome) :
    (RecordSpam defaultDetector s chatID userID e).2.2 = true ↔
      (3 : Int) ≤ (RecordSpam defaultDetector s chatID userID e).2.1 := by
  cases e with
  | ok => simp [RecordSpam, defaultDetector]
  | execFail => simp [RecordSpam]
  | queryFail => simp [RecordSpam]

/-- C4 counterexample: "earn money www.x" contains the keyword
"earn money" and no mention token, yet `IsSpam` classifies it as spam
(the link rule fires on "www."), so the claim as stated is false. -/
theorem isSpam_keyword_no_mention_counterexample :
    containsSub "earn money".data (toLowerStr "earn money www.x".data) = true ∧
    existsAt mentionAt "earn money www.x".data = false ∧
    (IsSpam "earn money www.x".data).1 = true := by
  decide

/-- C4 (amended): any text containing a spam keyword but no mention
token and no link token is classified as not-spam. -/
theorem isSpam_keyword_no_mention_no_link (text : List Char)
    (hk : spamKeywords.any (fun k => containsSub k.data (toLowerStr text)) = true)
    (hm : existsAt mentionAt text = false)
    (hl : existsAt linkAt text = false) :
    IsSpam text = (false, "", "") := by
  simp [IsSpam, hm, hl]

theorem isSpam_keyword_no_mention_no_link_witness :
    spamKeywords.any (fun k => containsSub k.data (toLowerStr "free money for all".data)) = true ∧
    IsSpam "free money for all".data = (false, "", "") :=
  ⟨by decide, isSpam_keyword_no_mention_no_link _ (by decide) (by decide) (by decide)⟩

/-- C5: any text with no link token, a mention token, and at least one
keyword contained (case-insensitively) in it is classified as spam with
internal reason "spam keyword with mention: " followed by the first
matching keyword in table order. -/
theorem isSpam_mention_keyword (text : List Char) (keyword : String)
    (hl : existsAt linkAt text = false)
    (hm : existsAt mentionAt text = true)
    (hf : spamKeywords.find? (fun k => containsSub k.data (toLowerStr text)) = some keyword) :
    IsSpam text = (true, "spam keyword with mention: " ++ keyword, "멘션+스팸 키워드") := by
  simp [IsSpam, hl, hm, hf]

theorem isSpam_mention_keyword_witness :
    IsSpam "Hey @someone, guaranteed profit investing with us!".data =
      (true, "spam keyword with mention: guaranteed profit", "멘션+스팸 키워드") :=
  isSpam_mention_keyword _ "guaranteed profit" (by decide) (by decide) (by decide)

/-- C6: when either database statement inside `RecordSpam` fails, the
call returns exactly `(0, false)` (a total, non-crashing degraded
result; the failure is only logged). -/
theorem recordSpam_error_degrades (sd : SpamDetector) (s : Store) (chatID userID : Int) :
    (RecordSpam sd s chatID userID .execFail).2 = (0, false) ∧
    (RecordSpam sd s chatID userID .queryFail).2 = (0, false) :=
  ⟨rfl, rfl⟩

/-- C7: a `RecordSpam` call for one key leaves every other key of the
store unchanged, and for any key the stored count never decreases (and
an existing record is never deleted), whatever the database outcome. -/
theorem recordSpam_key_isolation_monotone (sd : SpamDetector) (s : Store)
    (chatID userID : Int) (e : DBOutcome) (key : Int × Int) :
    (key ≠ (chatID, userID) → (RecordSpam sd s chatID userID e).1 key = s key) ∧
    (∀ c : Int, s key = some c →
      ∃ c2 : Int, (RecordSpam sd s chatID userID e).1 key = some c2 ∧ c ≤ c2) := by
  cases e with
  | ok => exact upsert_isolation_monotone s chatID userID key
  | execFail => exact ⟨fun _ => rfl, fun c h => ⟨c, h, le_refl c⟩⟩
  | queryFail => exact upsert_isolation_monotone s chatID userID key

theorem recordSpam_key_isolation_monotone_witness :
    ((RecordSpam defaultDetector storeW 3 4 .ok).1 (1, 2) = storeW (1, 2)) ∧
    (∃ c2 : Int, (RecordSpam defaultDetector storeW 3 4 .ok).1 (1, 2) = some c2 ∧ (5 : Int) ≤ c2) :=
  ⟨(recordSpam_key_isolation_monotone defaultDetector storeW 3 4 .ok (1, 2)).1 (by decide),
   (recordSpam_key_isolation_monotone defaultDetector storeW 3 4 .ok (1, 2)).2 5 (by decide)⟩

/-- C8: classification is total — it returns a verdict for every input
— and on the empty text neither pattern matches and the result is
not-spam. -/
theorem isSpam_total_and_empty :
    (∀ text : List Char, ∃ v : Bool × String × String, IsSpam text = v) ∧
    existsAt linkAt [] = false ∧ existsAt mentionAt [] = false ∧
    IsSpam [] = (false, "", "") :=
  ⟨fun text => ⟨IsSpam text, rfl⟩, by decide, by decide, by decide⟩

/-- C9: classification is a pure deterministic function of the text:
equal inputs always give the same `(isSpam, reason, displayReason)`
triple (the embedding takes no state at all — the pattern tables and
keyword list are fixed constants, and `IsSpam` touches no store). -/
theorem isSpam_deterministic (t1 t2 : List Char) (h : t1 = t2) : IsSpam t1 = IsSpam t2 :=
  congrArg IsSpam h

theorem isSpam_deterministic_witness :
    IsSpam "hello".data = IsSpam "hello".data :=
  isSpam_deterministic "hello".data "hello".data rfl

/-- C10: when the upsert succeeds but the count read fails,
`RecordSpam` returns the degraded `(0, false)` even though the stored
count for the key has already been incremented (created with 1, or old
count + 1) — the error result is not atomic with the state change. -/
theorem recordSpam_queryFail_not_atomic (sd : SpamDetector) (s : Store) (chatID userID : Int) :
    (RecordSpam sd s chatID userID .queryFail).2 = (0, false) ∧
    (RecordSpam sd s chatID userID .queryFail).1 (chatID, userID) =
      some (match s (chatID, userID) with | none => 1 | some c => c + 1) := by
  refine ⟨rfl, ?_⟩
  simp only [RecordSpam, upsertSpamRecord, if_pos]
  cases s (chatID, userID) <;> rfl
